import Mathlib

/-
Verification of the dab_test repository: the PathResolver singleton
(dab_demo/src/path_manager.py), the parse_bar config reader
(dab_demo/src/foo/bar.py), and the configuration-file validation tests
(common_framework/tests/test_config.py).

Paths are modelled as their component lists (pathlib.Path); YAML and JSON
parsing are external library collaborators, modelled on exactly the value
subset this repository uses.
-/

/-- A filesystem path, modelled as the list of its components below the root
(the shallow model of pathlib.Path). -/
abbrev FsPath := List String

/-- pathlib semantics of p.parent: drop the last component; the parent of the
root is the root itself. -/
def FsPath.parent (p : FsPath) : FsPath := p.dropLast

/-- Split a string at slash characters, accumulating the current segment. -/
def splitSlashAux : List Char → List Char → List String
  | [], acc => [String.mk acc.reverse]
  | c :: cs, acc =>
    if c = '/' then String.mk acc.reverse :: splitSlashAux cs []
    else splitSlashAux cs (c :: acc)

/-- Split a string at slash characters, as pathlib does when a joined segment
such as config/bar.yml contains a separator. -/
def splitSlash (s : String) : List String := splitSlashAux s.toList []

/-- pathlib semantics of the / operator: append each slash-separated segment of
the right operand as one component. -/
def FsPath.join (p : FsPath) (s : String) : FsPath := p ++ splitSlash s

/-- A filesystem: the text content of the file at each path, when a file
exists there. -/
def FileSystem : Type := FsPath → Option String

/-- st_size of the file at a path: the length of its content (the texts used
here are ASCII); none when no file exists there, in which case stat raises. -/
def fileSize (fs : FileSystem) (p : FsPath) : Option Nat :=
  (fs p).map String.length

namespace PathResolver

/-- The class-level singleton state of PathResolver: none models
_instance = None (no instance yet), and some r models an existing singleton
instance whose _root class attribute holds r. The two class attributes are
always assigned together inside the guarded branch of __new__, so one option
value captures both. -/
abbrev State := Option FsPath

/-- PathResolver.__new__ from path_manager.py: when no instance exists yet,
create the singleton and set cls._root to Path(module file).parent.parent;
always return the singleton instance, modelled by the root value it carries,
together with the class state after the call. moduleFile is the location of
the defining module path_manager.py. -/
def new (moduleFile : FsPath) (s : State) : FsPath × State :=
  match s with
  | some r => (r, some r)
  | none =>
    let r := FsPath.parent (FsPath.parent moduleFile)
    (r, some r)

/-- The resources property: self._root / resources. A pure function of the
cached root; it takes no filesystem argument, so the directory need not
exist and no error can arise. -/
def resources (root : FsPath) : FsPath := FsPath.join root ("resources")

/-- The tests property: self._root / tests. -/
def tests (root : FsPath) : FsPath := FsPath.join root ("tests")

/-- The common_framework property: self._root.parent / common_framework. -/
def common_framework (root : FsPath) : FsPath :=
  FsPath.join (FsPath.parent root) ("common_framework")

/-- The names of the property accessors the PathResolver class defines, in
source order. The class defines exactly these three properties and in
particular no config property. -/
def accessors : List String := ["resources", "tests", "common_framework"]

/-- Repeated construction: perform n constructions PathResolver() in sequence
within one process, collecting the root carried by the instance each call
returns, together with the final class state. -/
def constructList (moduleFile : FsPath) : Nat → State → List FsPath × State
  | 0, s => ([], s)
  | n+1, s =>
    let first := new moduleFile s
    let rest := constructList moduleFile n first.2
    (first.1 :: rest.1, rest.2)

end PathResolver

/-- YAML values, restricted to what the configuration of this repository
uses: the Python None result, plain string scalars, and string-keyed
mappings (the shapes yaml.safe_load returns for bar.yml). -/
inductive Yaml
  | null
  | str (s : String)
  | map (entries : List (String × Yaml))

/-- Key lookup on a loaded YAML value, the model of config[key]: none when
the value is not a mapping or the key is absent (Python raises there). -/
def Yaml.lookup (k : String) : Yaml → Option Yaml
  | .map es => es.lookup k
  | _ => none

/-- isinstance(v, dict) on a loaded YAML value. -/
def Yaml.isMap : Yaml → Bool
  | .map _ => true
  | _ => false

/-- Characters that may appear in a plain YAML scalar or key in the flow
subset this repository uses. -/
def yamlPlainChar (c : Char) : Bool :=
  !(c = '{' || c = '}' || c = ',' || c = ':' || c = ' ' || c = '\n')

/-- Plain-scalar resolution: PyYAML reads the scalar null as Python None;
every other plain scalar appearing here stays a string. -/
def yamlScalar (s : String) : Yaml :=
  if s = "null" then Yaml.null else Yaml.str s

mutual

/-- Model of the YAML value grammar of this repository: flow mappings in
braces and plain scalars; the fuel bounds nesting depth. Returns the parsed
value and the unconsumed input, or none on a syntax error. -/
def parseYamlValue : Nat → List Char → Option (Yaml × List Char)
  | 0, _ => none
  | fuel+1, cs =>
    match cs with
    | '{' :: rest =>
      match rest with
      | '}' :: r => some (Yaml.map [], r)
      | _ =>
        match parseYamlEntries fuel rest with
        | some (es, r) => some (Yaml.map es, r)
        | none => none
    | _ =>
      match cs.span yamlPlainChar with
      | ([], _) => none
      | (k, r) => some (yamlScalar (String.mk k), r)

/-- Entries of a flow mapping, consuming up to and including the closing
brace. -/
def parseYamlEntries : Nat → List Char → Option (List (String × Yaml) × List Char)
  | 0, _ => none
  | fuel+1, cs =>
    match cs.span yamlPlainChar with
    | ([], _) => none
    | (k, ':' :: ' ' :: r) =>
      match parseYamlValue fuel r with
      | none => none
      | some (v, r2) =>
        match r2 with
        | ',' :: ' ' :: r3 =>
          match parseYamlEntries fuel r3 with
          | some (es, r4) => some ((String.mk k, v) :: es, r4)
          | none => none
        | '}' :: r3 => some ([(String.mk k, v)], r3)
        | _ => none
    | _ => none

end

/-- A whole YAML document: either a single flow value, or one top-level
block mapping line of the form key, colon, space, value. -/
def parseYamlTop (fuel : Nat) (cs : List Char) : Option Yaml :=
  match parseYamlValue fuel cs with
  | some (v, []) => some v
  | _ =>
    match cs.span yamlPlainChar with
    | ([], _) => none
    | (k, ':' :: ' ' :: r) =>
      match parseYamlValue fuel r with
      | some (v, []) => some (Yaml.map [(String.mk k, v)])
      | _ => none
    | _ => none

/-- Model of yaml.safe_load on the subset of documents this repository
contains: the empty document loads as None (Yaml.null), any other document
must parse completely; none models a raised YAMLError. -/
def yamlParse (s : String) : Option Yaml :=
  match s.toList with
  | [] => some Yaml.null
  | cs => parseYamlTop (cs.length + 1) cs

mutual

/-- Model of yaml.dump in flow style on the value subset used here. -/
def yamlEmit : Yaml → String
  | .null => "null"
  | .str s => s
  | .map es => "\x7b" ++ yamlEmitEntries es ++ "\x7d"

/-- Flow-style serialization of mapping entries, comma separated. -/
def yamlEmitEntries : List (String × Yaml) → String
  | [] => ""
  | [kv] => kv.1 ++ ": " ++ yamlEmit kv.2
  | kv :: rest => kv.1 ++ ": " ++ yamlEmit kv.2 ++ ", " ++ yamlEmitEntries rest

end

/-- Outcome of parse_bar: opening a missing file raises, yaml.safe_load
raises on malformed text, and otherwise the loaded value is returned as is. -/
inductive BarResult
  | fileNotFound
  | parseError
  | ok (data : Yaml)

/-- parse_bar from dab_demo/src/foo/bar.py: construct PathResolver(), form
paths.common_framework / config/bar.yml, open that file and return the
yaml.safe_load of its text. The YAML library is the safeLoad parameter and
the filesystem is fs; c is the resolver class state before the call. -/
def parse_bar (moduleFile : FsPath) (fs : FileSystem)
    (safeLoad : String → Option Yaml) (c : PathResolver.State) :
    BarResult × PathResolver.State :=
  let paths := PathResolver.new moduleFile c
  let config_path := FsPath.join (PathResolver.common_framework paths.1) ("config/bar.yml")
  match fs config_path with
  | none => (BarResult.fileNotFound, paths.2)
  | some text =>
    match safeLoad text with
    | none => (BarResult.parseError, paths.2)
    | some data => (BarResult.ok data, paths.2)

/-- The path parse_bar opens, as a function of the defining module location
and the resolver class state before the call. -/
def barYmlPathOf (moduleFile : FsPath) (c : PathResolver.State) : FsPath :=
  FsPath.join (PathResolver.common_framework (PathResolver.new moduleFile c).1)
    ("config/bar.yml")

/-- The mapping the configuration contract prescribes for bar.yml:
bar_test is a mapping carrying foo_test with value zoo. -/
def barYmlContract : Yaml :=
  Yaml.map [("bar_test", Yaml.map [("foo_test", Yaml.str ("zoo"))])]

/-- JSON values as data.json uses them: strings and arrays. -/
inductive Json
  | str (s : String)
  | arr (elts : List Json)

/-- isinstance(v, str) on a loaded JSON value. -/
def Json.isStr : Json → Bool
  | .str _ => true
  | _ => false

/-- isinstance(v, list) on a loaded JSON value. -/
def Json.isList : Json → Bool
  | .arr _ => true
  | _ => false

/-- The string a JSON value holds, when it is a string. -/
def Json.asStr : Json → Option String
  | .str s => some s
  | _ => none

/-- Python len of a loaded JSON value: the element count of a list, the
character count of a string. -/
def Json.pyLen : Json → Nat
  | .str s => s.length
  | .arr xs => xs.length

/-- Skip JSON whitespace. -/
def skipWs : List Char → List Char
  | [] => []
  | c :: cs =>
    if c = ' ' || c = '\n' || c = '\t' || c = '\r' then skipWs cs
    else c :: cs

/-- Read the body of a JSON string literal up to the closing double quote
(the data of this repository needs no escape sequences). -/
def jsonStrBodyAux : List Char → List Char → Option (String × List Char)
  | [], _ => none
  | c :: cs, acc =>
    if c = '\"' then some (String.mk acc.reverse, cs)
    else jsonStrBodyAux cs (c :: acc)

/-- The comma-separated string elements of a JSON array, consuming the
closing bracket. -/
def jsonStrItems : Nat → List Char → Option (List Json × List Char)
  | 0, _ => none
  | fuel+1, cs =>
    match skipWs cs with
    | '\"' :: cs2 =>
      match jsonStrBodyAux cs2 [] with
      | none => none
      | some (s, r) =>
        match skipWs r with
        | ',' :: r2 =>
          match jsonStrItems fuel r2 with
          | some (xs, r3) => some (Json.str s :: xs, r3)
          | none => none
        | ']' :: r2 => some ([Json.str s], r2)
        | _ => none
    | _ => none

/-- Model of json.load on the subset data.json uses: a string literal or an
array of string literals; none models a raised JSONDecodeError, which the
empty text also triggers. -/
def jsonParse (s : String) : Option Json :=
  match skipWs s.toList with
  | '\"' :: cs =>
    match jsonStrBodyAux cs [] with
    | some (t, r) => if skipWs r = [] then some (Json.str t) else none
    | none => none
  | '[' :: cs =>
    match skipWs cs with
    | ']' :: r => if skipWs r = [] then some (Json.arr []) else none
    | cs2 =>
      match jsonStrItems (cs2.length + 1) cs2 with
      | some (xs, r) => if skipWs r = [] then some (Json.arr xs) else none
      | none => none
  | _ => none

/-- The outcome pytest records for one test function: an assertion failure
and an exception inside the test both count as a failing test. -/
inductive TestResult
  | pass
  | fail
deriving DecidableEq

/-- The config_dir fixture of test_config.py:
Path(test file).parent.parent / config. -/
def config_dir (testFile : FsPath) : FsPath :=
  FsPath.join (FsPath.parent (FsPath.parent testFile)) ("config")

/-- The bar_yml_path fixture: config_dir / bar.yml. -/
def bar_yml_path (testFile : FsPath) : FsPath :=
  FsPath.join (config_dir testFile) ("bar.yml")

/-- The data_json_path fixture: config_dir / data.json. -/
def data_json_path (testFile : FsPath) : FsPath :=
  FsPath.join (config_dir testFile) ("data.json")

/-- TestBarYml.test_bar_yml_file_exists: assert the file exists. -/
def test_bar_yml_file_exists (fs : FileSystem) (p : FsPath) : TestResult :=
  if (fs p).isSome then .pass else .fail

/-- TestBarYml.test_bar_yml_is_valid_yaml: loading must not raise. -/
def test_bar_yml_is_valid_yaml (safeLoad : String → Option Yaml)
    (fs : FileSystem) (p : FsPath) : TestResult :=
  match fs p with
  | none => .fail
  | some text => if (safeLoad text).isSome then .pass else .fail

/-- TestBarYml.test_bar_yml_structure: the loaded value is a dict, carries
the key bar_test, and that entry is itself a dict. -/
def test_bar_yml_structure (safeLoad : String → Option Yaml)
    (fs : FileSystem) (p : FsPath) : TestResult :=
  match fs p with
  | none => .fail
  | some text =>
    match safeLoad text with
    | none => .fail
    | some config =>
      if config.isMap then
        match config.lookup ("bar_test") with
        | none => .fail
        | some bt => if bt.isMap then .pass else .fail
      else .fail

/-- TestBarYml.test_bar_yml_content: config of bar_test of foo_test equals
the string zoo. -/
def test_bar_yml_content (safeLoad : String → Option Yaml)
    (fs : FileSystem) (p : FsPath) : TestResult :=
  match fs p with
  | none => .fail
  | some text =>
    match safeLoad text with
    | none => .fail
    | some config =>
      match config.lookup ("bar_test") with
      | none => .fail
      | some bt =>
        match bt.lookup ("foo_test") with
        | none => .fail
        | some (Yaml.str s) => if s = "zoo" then .pass else .fail
        | some _ => .fail

/-- TestBarYml.test_bar_yml_file_not_empty: stat().st_size is positive. -/
def test_bar_yml_file_not_empty (fs : FileSystem) (p : FsPath) : TestResult :=
  match fileSize fs p with
  | none => .fail
  | some n => if 0 < n then .pass else .fail

/-- The TestBarYml class: its test functions with their results, in source
definition order, which is the order pytest collects and runs them. -/
def barYmlSuite (safeLoad : String → Option Yaml) (fs : FileSystem)
    (p : FsPath) : List (String × TestResult) :=
  [("test_bar_yml_file_exists", test_bar_yml_file_exists fs p),
   ("test_bar_yml_is_valid_yaml", test_bar_yml_is_valid_yaml safeLoad fs p),
   ("test_bar_yml_structure", test_bar_yml_structure safeLoad fs p),
   ("test_bar_yml_content", test_bar_yml_content safeLoad fs p),
   ("test_bar_yml_file_not_empty", test_bar_yml_file_not_empty fs p)]

/-- The test names of TestBarYml in source definition order. -/
def barYmlTestOrder : List String :=
  ["test_bar_yml_file_exists", "test_bar_yml_is_valid_yaml",
   "test_bar_yml_structure", "test_bar_yml_content",
   "test_bar_yml_file_not_empty"]

/-- TestDataJson.test_data_json_file_exists. -/
def test_data_json_file_exists (fs : FileSystem) (p : FsPath) : TestResult :=
  if (fs p).isSome then .pass else .fail

/-- TestDataJson.test_data_json_is_valid_json: loading must not raise. -/
def test_data_json_is_valid_json (jsonLoad : String → Option Json)
    (fs : FileSystem) (p : FsPath) : TestResult :=
  match fs p with
  | none => .fail
  | some text => if (jsonLoad text).isSome then .pass else .fail

/-- TestDataJson.test_data_json_structure: the loaded value is a list. -/
def test_data_json_structure (jsonLoad : String → Option Json)
    (fs : FileSystem) (p : FsPath) : TestResult :=
  match fs p with
  | none => .fail
  | some text =>
    match jsonLoad text with
    | none => .fail
    | some d => if d.isList then .pass else .fail

/-- The expected content of data.json per the configuration contract. -/
def expectedContent : List String := ["Lorem", "Ipsum", "Dolor", "Sit", "Amet"]

/-- TestDataJson.test_data_json_content: the loaded value equals the literal
expected list, element for element and in order. -/
def test_data_json_content (jsonLoad : String → Option Json)
    (fs : FileSystem) (p : FsPath) : TestResult :=
  match fs p with
  | none => .fail
  | some text =>
    match jsonLoad text with
    | none => .fail
    | some (Json.arr xs) =>
      if xs.mapM Json.asStr = some expectedContent then .pass else .fail
    | some _ => .fail

/-- TestDataJson.test_data_json_list_length: len of the loaded value is 5. -/
def test_data_json_list_length (jsonLoad : String → Option Json)
    (fs : FileSystem) (p : FsPath) : TestResult :=
  match fs p with
  | none => .fail
  | some text =>
    match jsonLoad text with
    | none => .fail
    | some d => if d.pyLen = 5 then .pass else .fail

/-- TestDataJson.test_data_json_all_strings: every iterated element is a
string (iterating a Python string yields one-character strings, so a string
value passes as well). -/
def test_data_json_all_strings (jsonLoad : String → Option Json)
    (fs : FileSystem) (p : FsPath) : TestResult :=
  match fs p with
  | none => .fail
  | some text =>
    match jsonLoad text with
    | none => .fail
    | some (Json.arr xs) => if xs.all Json.isStr then .pass else .fail
    | some (Json.str _) => .pass

/-- TestDataJson.test_data_json_file_not_empty: stat().st_size is positive. -/
def test_data_json_file_not_empty (fs : FileSystem) (p : FsPath) : TestResult :=
  match fileSize fs p with
  | none => .fail
  | some n => if 0 < n then .pass else .fail

/-- The TestDataJson class: its test functions with their results, in source
definition order, which is the order pytest collects and runs them. -/
def dataJsonSuite (jsonLoad : String → Option Json) (fs : FileSystem)
    (p : FsPath) : List (String × TestResult) :=
  [("test_data_json_file_exists", test_data_json_file_exists fs p),
   ("test_data_json_is_valid_json", test_data_json_is_valid_json jsonLoad fs p),
   ("test_data_json_structure", test_data_json_structure jsonLoad fs p),
   ("test_data_json_content", test_data_json_content jsonLoad fs p),
   ("test_data_json_list_length", test_data_json_list_length jsonLoad fs p),
   ("test_data_json_all_strings", test_data_json_all_strings jsonLoad fs p),
   ("test_data_json_file_not_empty", test_data_json_file_not_empty fs p)]

/-- The test names of TestDataJson in source definition order. -/
def dataJsonTestOrder : List String :=
  ["test_data_json_file_exists", "test_data_json_is_valid_json",
   "test_data_json_structure", "test_data_json_content",
   "test_data_json_list_length", "test_data_json_all_strings",
   "test_data_json_file_not_empty"]

/-- A concrete location for path_manager.py in the fixed repository layout. -/
def demoModuleFile : FsPath := ["repo", "dab_demo", "src", "path_manager.py"]

/-- The corresponding concrete location of test_config.py. -/
def testConfigFile : FsPath := ["repo", "common_framework", "tests", "test_config.py"]

/-- A concrete bar.yml text carrying the contract mapping, in the single-line
form bar_test, colon, space, flow mapping. -/
def demoBarText : String := "bar_test: \x7bfoo_test: zoo\x7d"

/-- The literal JSON text of data.json per the configuration contract. -/
def dataJsonText : String := "[\"Lorem\",\"Ipsum\",\"Dolor\",\"Sit\",\"Amet\"]"

/-- A filesystem whose two configuration files carry exactly the contract
texts. -/
def contractConfigFs : FileSystem := fun p =>
  if p = bar_yml_path testConfigFile then some demoBarText
  else if p = data_json_path testConfigFile then some dataJsonText
  else none

/-- A filesystem whose two configuration files exist but are empty. -/
def emptyConfigFs : FileSystem := fun p =>
  if p = bar_yml_path testConfigFile ∨ p = data_json_path testConfigFile then some ""
  else none

/-- Evaluation of the slash split on the resources segment. -/
theorem splitSlash_resources : splitSlash ("resources") = ["resources"] := rfl

/-- Evaluation of the slash split on the tests segment. -/
theorem splitSlash_tests : splitSlash ("tests") = ["tests"] := rfl

/-- Evaluation of the slash split on the common_framework segment. -/
theorem splitSlash_common_framework :
    splitSlash ("common_framework") = ["common_framework"] := rfl

/-- Once the singleton state is populated, further constructions return the
cached root and leave the state unchanged. -/
theorem constructList_saturated (moduleFile : FsPath) (n : Nat) (r : FsPath) :
    PathResolver.constructList moduleFile n (some r) = (List.replicate n r, some r) := by
  induction n with
  | zero => rfl
  | succ n ih =>
    simp [PathResolver.constructList, PathResolver.new, ih, List.replicate_succ]

/-- Every root returned by a sequence of constructions that starts from the
fresh class state is the directory two levels above the defining module. -/
theorem mem_constructList_root (moduleFile : FsPath) (n : Nat) (r : FsPath)
    (h : r ∈ (PathResolver.constructList moduleFile n none).1) :
    r = FsPath.parent (FsPath.parent moduleFile) := by
  cases n with
  | zero => simp [PathResolver.constructList] at h
  | succ m =>
    simp [PathResolver.constructList, PathResolver.new,
      constructList_saturated, List.mem_replicate] at h
    rcases h with h | ⟨-, h⟩ <;> exact h

/-- Claim C1: within one process, every construction of PathResolver returns
the same singleton and the same ProjectRoot. Any n+1 successive constructions
starting from the fresh class state all yield the one root fixed by the first
construction, namely the directory two levels above the defining module, and
the class state holds exactly that root afterwards. -/
theorem pathResolver_singleton_root (moduleFile : FsPath) (n : Nat) :
    PathResolver.constructList moduleFile (n + 1) none =
      (List.replicate (n + 1) (FsPath.parent (FsPath.parent moduleFile)),
        some (FsPath.parent (FsPath.parent moduleFile))) := by
  simp [PathResolver.constructList, PathResolver.new,
    constructList_saturated, List.replicate_succ]

/-- Claim C3: on the first construction in a process, ProjectRoot is computed
as the directory two levels above the resolver module file and cached in the
class state; on any later construction the cached root is returned unchanged
and never recomputed, even from a different apparent module location. -/
theorem pathResolver_root_computed_once (moduleFile other r : FsPath) :
    PathResolver.new moduleFile none =
      (FsPath.parent (FsPath.parent moduleFile),
        some (FsPath.parent (FsPath.parent moduleFile))) ∧
    PathResolver.new other (some r) = (r, some r) :=
  ⟨rfl, rfl⟩

/-- Claim C4: the resources accessor returns ProjectRoot / resources, the
tests accessor returns ProjectRoot / tests, and the common_framework accessor
returns ProjectRoot.parent / common_framework. Each accessor is a total
function of the root alone, so no directory has to exist. -/
theorem accessor_paths (root : FsPath) :
    PathResolver.resources root = root ++ ["resources"] ∧
    PathResolver.tests root = root ++ ["tests"] ∧
    PathResolver.common_framework root = FsPath.parent root ++ ["common_framework"] := by
  refine ⟨?_, ?_, ?_⟩ <;>
    simp [PathResolver.resources, PathResolver.tests, PathResolver.common_framework,
      FsPath.join, splitSlash_resources, splitSlash_tests, splitSlash_common_framework]

/-- Claim C2 counterexample: the PathResolver class defines no config
accessor; config is not among its property names. -/
theorem config_accessor_absent : "config" ∉ PathResolver.accessors := by decide

/-- Claim C2 (amended): PathResolver does not expose a config accessor; its
accessor set is exactly resources, tests and common_framework, and the
sibling-project accessor common_framework returns
ProjectRoot.parent / common_framework. -/
theorem accessor_set_of_resolver :
    PathResolver.accessors = ["resources", "tests", "common_framework"] ∧
    ∀ root : FsPath,
      PathResolver.common_framework root = FsPath.parent root ++ ["common_framework"] := by
  refine ⟨rfl, fun root => ?_⟩
  simp [PathResolver.common_framework, FsPath.join, splitSlash_common_framework]

/-- Claim C5 counterexample: the claim quantifies over the accessor list
resources, tests, config, common_framework, but that list is not contained in
the accessor set the PathResolver class actually defines (config is missing). -/
theorem claimed_accessor_list_not_defined :
    ¬ ∀ a ∈ ["resources", "tests", "config", "common_framework"],
        a ∈ PathResolver.accessors := by
  decide

/-- Claim C5 (amended): every accessor the resolver defines (resources, tests,
common_framework) is a pure function of the cached ProjectRoot: applied to the
roots carried by any two instances returned by constructions in one process,
each accessor yields path-equal results; the accessors take no filesystem
argument and are total, so they perform no filesystem access and raise no
error. -/
theorem accessors_pure (moduleFile : FsPath) (n : Nat) (r1 r2 : FsPath)
    (h1 : r1 ∈ (PathResolver.constructList moduleFile n none).1)
    (h2 : r2 ∈ (PathResolver.constructList moduleFile n none).1) :
    PathResolver.resources r1 = PathResolver.resources r2 ∧
    PathResolver.tests r1 = PathResolver.tests r2 ∧
    PathResolver.common_framework r1 = PathResolver.common_framework r2 := by
  have e1 := mem_constructList_root moduleFile n r1 h1
  have e2 := mem_constructList_root moduleFile n r2 h2
  subst e1
  subst e2
  exact ⟨rfl, rfl, rfl⟩

/-- Witness for claim C5: two constructions in one process with the module at
repo/dab_demo/src/path_manager.py give instances whose accessor results
agree. -/
theorem accessors_pure_witness :
    PathResolver.resources ["repo", "dab_demo"] =
        PathResolver.resources ["repo", "dab_demo"] ∧
    PathResolver.tests ["repo", "dab_demo"] =
        PathResolver.tests ["repo", "dab_demo"] ∧
    PathResolver.common_framework ["repo", "dab_demo"] =
        PathResolver.common_framework ["repo", "dab_demo"] :=
  accessors_pure ["repo", "dab_demo", "src", "path_manager.py"] 2
    ["repo", "dab_demo"] ["repo", "dab_demo"] (by decide) (by decide)

/-- Claim C6: whenever the file at PathResolver().common_framework joined with
config/bar.yml exists and its text loads as the mapping in which bar_test
carries foo_test with value zoo, parse_bar returns a mapping m whose bar_test
entry has foo_test equal to the string zoo. -/
theorem parse_bar_reads_contract (moduleFile : FsPath) (c : PathResolver.State)
    (fs : FileSystem) (safeLoad : String → Option Yaml) (text : String)
    (hfile : fs (barYmlPathOf moduleFile c) = some text)
    (hyaml : safeLoad text = some barYmlContract) :
    ∃ m, (parse_bar moduleFile fs safeLoad c).1 = BarResult.ok m ∧
      (Yaml.lookup ("bar_test") m).bind (Yaml.lookup ("foo_test")) =
        some (Yaml.str ("zoo")) := by
  refine ⟨barYmlContract, ?_, rfl⟩
  have hp : fs (FsPath.join (PathResolver.common_framework
      (PathResolver.new moduleFile c).1) ("config/bar.yml")) = some text := hfile
  simp [parse_bar, hp, hyaml]

/-- Witness for claim C6: with the contract filesystem, the fresh resolver
state and the modelled YAML loader, parse_bar yields the contract mapping. -/
theorem parse_bar_reads_contract_witness :
    ∃ m, (parse_bar demoModuleFile contractConfigFs yamlParse none).1 =
        BarResult.ok m ∧
      (Yaml.lookup ("bar_test") m).bind (Yaml.lookup ("foo_test")) =
        some (Yaml.str ("zoo")) :=
  parse_bar_reads_contract demoModuleFile none contractConfigFs yamlParse
    demoBarText rfl rfl

/-- Claim C7 counterexample: in both test classes the file-not-empty test is
defined after the structural test, so under the source-order collection pytest
uses it does not run before the structural checks. -/
theorem file_not_empty_check_not_before_structure :
    (¬ barYmlTestOrder.findIdx (fun s => s == "test_bar_yml_file_not_empty") <
        barYmlTestOrder.findIdx (fun s => s == "test_bar_yml_structure")) ∧
    (¬ dataJsonTestOrder.findIdx (fun s => s == "test_data_json_file_not_empty") <
        dataJsonTestOrder.findIdx (fun s => s == "test_data_json_structure")) := by
  decide

/-- Claim C7 (amended): an empty bar.yml or data.json is rejected by the
file-not-empty test, which fails on it; but that test is the last one of its
class, so the structural tests execute on the empty file content (and fail)
before the file-not-empty test runs, not after it. -/
theorem empty_config_file_checks :
    barYmlSuite yamlParse emptyConfigFs (bar_yml_path testConfigFile) =
      [("test_bar_yml_file_exists", TestResult.pass),
       ("test_bar_yml_is_valid_yaml", TestResult.pass),
       ("test_bar_yml_structure", TestResult.fail),
       ("test_bar_yml_content", TestResult.fail),
       ("test_bar_yml_file_not_empty", TestResult.fail)] ∧
    dataJsonSuite jsonParse emptyConfigFs (data_json_path testConfigFile) =
      [("test_data_json_file_exists", TestResult.pass),
       ("test_data_json_is_valid_json", TestResult.fail),
       ("test_data_json_structure", TestResult.fail),
       ("test_data_json_content", TestResult.fail),
       ("test_data_json_list_length", TestResult.fail),
       ("test_data_json_all_strings", TestResult.fail),
       ("test_data_json_file_not_empty", TestResult.fail)] ∧
    (barYmlSuite yamlParse emptyConfigFs (bar_yml_path testConfigFile)).map
        Prod.fst = barYmlTestOrder ∧
    (dataJsonSuite jsonParse emptyConfigFs (data_json_path testConfigFile)).map
        Prod.fst = dataJsonTestOrder ∧
    barYmlTestOrder.findIdx (fun s => s == "test_bar_yml_structure") <
      barYmlTestOrder.findIdx (fun s => s == "test_bar_yml_file_not_empty") ∧
    dataJsonTestOrder.findIdx (fun s => s == "test_data_json_structure") <
      dataJsonTestOrder.findIdx (fun s => s == "test_data_json_file_not_empty") :=
  ⟨rfl, rfl, rfl, rfl, by decide, by decide⟩

/-- Claim C8: loading the literal data.json text yields the array of the five
strings Lorem, Ipsum, Dolor, Sit, Amet in order; it has exactly 5 elements,
all strings, and the content tests of TestDataJson all pass on a file holding
that text. -/
theorem data_json_loaded_content :
    jsonParse dataJsonText = some (Json.arr (expectedContent.map Json.str)) ∧
    (expectedContent.map Json.str).length = 5 ∧
    (expectedContent.map Json.str).all Json.isStr = true ∧
    dataJsonSuite jsonParse contractConfigFs (data_json_path testConfigFile) =
      [("test_data_json_file_exists", TestResult.pass),
       ("test_data_json_is_valid_json", TestResult.pass),
       ("test_data_json_structure", TestResult.pass),
       ("test_data_json_content", TestResult.pass),
       ("test_data_json_list_length", TestResult.pass),
       ("test_data_json_all_strings", TestResult.pass),
       ("test_data_json_file_not_empty", TestResult.pass)] :=
  ⟨rfl, rfl, rfl, rfl⟩

/-- Claim C9: the mapping parse_bar loads from the contract bar.yml, when
serialized back to YAML text and parsed again, equals the original loaded
mapping. -/
theorem bar_yml_round_trip :
    (parse_bar demoModuleFile contractConfigFs yamlParse none).1 =
      BarResult.ok barYmlContract ∧
    yamlParse (yamlEmit barYmlContract) = some barYmlContract :=
  ⟨rfl, rfl⟩

/-- Claim C10: parse_bar returns whatever yaml.safe_load yields for the text
of an existing bar.yml, with no file-not-empty check and no structural
validation; in particular an existing empty file raises nothing and the
loaded None value is returned (the witness instantiates exactly that case). -/
theorem parse_bar_returns_load_unchecked (moduleFile : FsPath)
    (c : PathResolver.State) (fs : FileSystem)
    (safeLoad : String → Option Yaml) (text : String) (v : Yaml)
    (hfile : fs (barYmlPathOf moduleFile c) = some text)
    (hload : safeLoad text = some v) :
    (parse_bar moduleFile fs safeLoad c).1 = BarResult.ok v := by
  have hp : fs (FsPath.join (PathResolver.common_framework
      (PathResolver.new moduleFile c).1) ("config/bar.yml")) = some text := hfile
  simp [parse_bar, hp, hload]

/-- Witness for claim C10: on a filesystem where bar.yml exists and is empty,
parse_bar raises no error and returns the YAML null that models the Python
None result of yaml.safe_load on an empty document. -/
theorem parse_bar_returns_load_unchecked_witness :
    (parse_bar demoModuleFile emptyConfigFs yamlParse none).1 =
      BarResult.ok Yaml.null :=
  parse_bar_returns_load_unchecked demoModuleFile none emptyConfigFs yamlParse
    ("") Yaml.null rfl rfl
